import Mathlib

/-!
Verification of the batch-task lifecycle orchestrator in `scorer.py`
(ERW Job Scorer, ECS Fargate entrypoint), together with the shared
`combine_scope_data` aggregation (identical in `scorer.py` and
`lambda_handler.py`).

The embedding models one process run as a pure function from an
environment (configuration values, outcomes of the external calls, and
the delivery point of a possible SIGTERM) to a trace of observable
events plus the process exit status.  Python strings are Lean `String`s;
`str.split(sep)`, the `in` substring test and `s[:n]` slicing are given
executable models on character lists below.
-/

namespace ScopeScoring

/-! ## Python string primitives on character lists -/

/-- Index of the first occurrence of `sep` as a contiguous sublist of `l`
(`str.find` for a non-empty separator).  `none` when `sep` does not occur. -/
def findSub (sep : List Char) : List Char → Option Nat
  | [] => none
  | c :: rest =>
    if sep.isPrefixOf (c :: rest) then some 0
    else (findSub sep rest).map (· + 1)

/-- Substring containment, i.e. Python's `sep in s`. -/
def containsSub (sep l : List Char) : Bool :=
  (findSub sep l).isSome

theorem findSub_eq_some_le {sep l : List Char} {i : Nat}
    (h : findSub sep l = some i) : i + sep.length ≤ l.length := by
  induction l generalizing i with
  | nil => simp [findSub] at h
  | cons c rest ih =>
    simp only [findSub] at h
    split at h
    · rename_i hpre
      cases h
      have := List.IsPrefix.length_le (List.isPrefixOf_iff_prefix.mp hpre)
      simpa using this
    · cases hr : findSub sep rest with
      | none => simp [hr] at h
      | some j =>
        simp [hr] at h
        have := ih hr
        simp [List.length_cons]
        omega

/-- Fuel-bounded worker for `splitOnSub`; the fuel only needs to exceed the
length of the list, so the recursion is structural (and hence evaluates by
kernel reduction). -/
def splitFuel (sep : List Char) : Nat → List Char → List (List Char)
  | 0, l => [l]
  | fuel + 1, l =>
    match findSub sep l with
    | none => [l]
    | some i => l.take i :: splitFuel sep fuel (l.drop (i + sep.length))

/-- Python `s.split(sep)` for a non-empty separator, on character lists. -/
def splitOnSub (sep l : List Char) : List (List Char) :=
  splitFuel sep (l.length + 1) l

theorem splitFuel_congr (sep : List Char) (hne : sep ≠ []) :
    ∀ fuel₁ fuel₂ l, l.length < fuel₁ → l.length < fuel₂ →
    splitFuel sep fuel₁ l = splitFuel sep fuel₂ l := by
  intro fuel₁
  induction fuel₁ with
  | zero => intro fuel₂ l h₁ _; omega
  | succ f ih =>
    intro fuel₂ l h₁ h₂
    cases fuel₂ with
    | zero => omega
    | succ f₂ =>
      simp only [splitFuel]
      cases hfind : findSub sep l with
      | none => rfl
      | some i =>
        have hle := findSub_eq_some_le hfind
        have hsep : 0 < sep.length := List.length_pos.mpr hne
        have hdrop : (l.drop (i + sep.length)).length < l.length := by
          simp only [List.length_drop]
          omega
        dsimp only
        rw [ih f₂ (l.drop (i + sep.length)) (by omega) (by omega)]

theorem splitOnSub_eq (sep l : List Char) (hne : sep ≠ []) :
    splitOnSub sep l =
      (match findSub sep l with
        | none => [l]
        | some i => l.take i :: splitOnSub sep (l.drop (i + sep.length))) := by
  rw [splitOnSub]
  simp only [splitFuel]
  cases hfind : findSub sep l with
  | none => rfl
  | some i =>
    have hle := findSub_eq_some_le hfind
    have hsep : 0 < sep.length := List.length_pos.mpr hne
    dsimp only
    rw [splitFuel_congr sep hne l.length ((l.drop (i + sep.length)).length + 1)
      (l.drop (i + sep.length)) (by simp only [List.length_drop]; omega)
      (by omega)]
    rfl

theorem splitOnSub_ne_nil (sep l : List Char) : splitOnSub sep l ≠ [] := by
  rw [splitOnSub]
  cases l with
  | nil => simp [splitFuel, findSub]
  | cons c rest =>
    simp only [splitFuel]
    cases findSub sep (c :: rest) <;> simp

/-! ### Lemmas about `findSub` and `splitOnSub` -/

theorem findSub_prefix_true {sep l : List Char} (hne : sep ≠ [])
    (h : sep.isPrefixOf l = true) : findSub sep l = some 0 := by
  cases l with
  | nil =>
    cases sep with
    | nil => exact absurd rfl hne
    | cons a s => simp [List.isPrefixOf] at h
  | cons c rest => simp [findSub, h]

theorem not_infix_of_not_mem {c : Char} {sep l : List Char}
    (hc : c ∈ sep) (hl : c ∉ l) : ¬ sep <:+: l := by
  intro hinf
  exact hl (hinf.subset hc)

theorem containsSub_infix_iff {sep l : List Char} (hne : sep ≠ []) :
    containsSub sep l = true ↔ sep <:+: l := by
  induction l with
  | nil =>
    simp only [containsSub, findSub, Option.isSome_none]
    constructor
    · intro h; cases h
    · intro h
      have := h.length_le
      cases sep with
      | nil => exact absurd rfl hne
      | cons a s => simp at this
  | cons c rest ih =>
    simp only [containsSub, findSub]
    constructor
    · intro h
      split at h
      · rename_i hpre
        exact (List.isPrefixOf_iff_prefix.mp hpre).isInfix
      · rename_i hpre
        rw [List.infix_cons_iff]
        right
        apply ih.mp
        simp only [containsSub]
        cases hr : findSub sep rest with
        | none => simp [hr] at h
        | some j => simp
    · intro h
      rw [List.infix_cons_iff] at h
      split
      · simp
      · rename_i hpre
        rcases h with h | h
        · exact absurd (List.isPrefixOf_iff_prefix.mpr h) (by simpa using hpre)
        · have := ih.mpr h
          simp only [containsSub] at this
          cases hr : findSub sep rest with
          | none => simp [hr] at this
          | some j => simp [hr]

theorem findSub_none_of_not_contains {sep l : List Char}
    (h : containsSub sep l = false) : findSub sep l = none := by
  simp only [containsSub] at h
  cases hr : findSub sep l with
  | none => rfl
  | some i => simp [hr] at h

theorem splitOnSub_of_not_contains {sep l : List Char} (hne : sep ≠ [])
    (h : containsSub sep l = false) : splitOnSub sep l = [l] := by
  rw [splitOnSub_eq sep l hne, findSub_none_of_not_contains h]

/-- Shifting lemma: if no occurrence of `sep` begins inside `A` (including
occurrences straddling into `C`), the first occurrence in `A ++ C` is the
first occurrence in `C`, shifted by `A.length`. -/
theorem findSub_append_shift {sep : List Char} (A C : List Char)
    (h : ∀ t, t ≠ [] → t <:+ A → sep.isPrefixOf (t ++ C) = false) :
    findSub sep (A ++ C) = (findSub sep C).map (· + A.length) := by
  induction A with
  | nil =>
    simp only [List.nil_append, List.length_nil]
    cases findSub sep C <;> simp
  | cons a A' ih =>
    have hhead : sep.isPrefixOf ((a :: A') ++ C) = false :=
      h (a :: A') (by simp) (List.suffix_refl _)
    have hrest : ∀ t, t ≠ [] → t <:+ A' → sep.isPrefixOf (t ++ C) = false := by
      intro t ht hsuf
      exact h t ht (hsuf.trans (List.suffix_cons a A'))
    simp only [List.cons_append] at hhead
    simp only [List.cons_append, findSub, List.append_eq, hhead,
      Bool.false_eq_true, if_false]
    rw [ih hrest]
    cases findSub sep C with
    | none => simp
    | some j => simp [List.length_cons]; omega

theorem splitOnSub_boundary {sep : List Char} (A B : List Char) (hne : sep ≠ [])
    (h : ∀ t, t ≠ [] → t <:+ A → sep.isPrefixOf (t ++ (sep ++ B)) = false) :
    splitOnSub sep (A ++ (sep ++ B)) = A :: splitOnSub sep B := by
  have h0 : findSub sep (sep ++ B) = some 0 :=
    findSub_prefix_true hne (List.isPrefixOf_iff_prefix.mpr (List.prefix_append _ _))
  have hf : findSub sep (A ++ (sep ++ B)) = some A.length := by
    rw [findSub_append_shift A _ h, h0]
    simp
  rw [splitOnSub_eq sep _ hne, hf]
  dsimp only
  congr 1
  · exact List.take_left A _
  · congr 1
    rw [← List.drop_drop, List.drop_left, List.drop_left]

/-- The separator `":task/"` used by `enable_task_protection`. -/
def sepTask : List Char := [':', 't', 'a', 's', 'k', '/']

theorem single_no_straddle {c : Char} {A C : List Char} (hA : c ∉ A) :
    ∀ t, t ≠ [] → t <:+ A → [c].isPrefixOf (t ++ C) = false := by
  intro t ht hsuf
  cases t with
  | nil => exact absurd rfl ht
  | cons x t' =>
    have hx : x ∈ A := hsuf.subset (by simp)
    have hcx : ¬ (c == x) = true := by
      intro hcx
      exact hA (by simpa [beq_iff_eq.mp hcx] using hx)
    simp [List.isPrefixOf, List.cons_append]
    intro hcx'
    exact absurd (by simp [hcx']) hcx

theorem sepTask_no_straddle {A B : List Char} (hA : '/' ∉ A) :
    ∀ t, t ≠ [] → t <:+ A → sepTask.isPrefixOf (t ++ (sepTask ++ B)) = false := by
  intro t ht hsuf
  by_contra hp
  have hpre : sepTask <+: t ++ (sepTask ++ B) :=
    List.isPrefixOf_iff_prefix.mp (by simpa using hp)
  by_cases hlen : 6 ≤ t.length
  · have htake : sepTask = (t ++ (sepTask ++ B)).take 6 := by
      have := List.prefix_iff_eq_take.mp hpre
      simpa [sepTask] using this
    rw [List.take_append_of_le_length hlen] at htake
    have hmem : '/' ∈ t.take 6 := by
      rw [← htake]
      simp [sepTask]
    exact hA (hsuf.subset (List.take_subset _ _ hmem))
  · have htpre : t <+: sepTask := by
      apply List.prefix_of_prefix_length_le (List.prefix_append _ _) hpre
      simp [sepTask]
      omega
    have hlt : t.length < 6 := by omega
    have hpos : 0 < t.length := List.length_pos.mpr ht
    have hteq : t = sepTask.take t.length := List.prefix_iff_eq_take.mp htpre
    have hcase : t.length = 1 ∨ t.length = 2 ∨ t.length = 3 ∨ t.length = 4 ∨
        t.length = 5 := by omega
    rcases hcase with h1 | h1 | h1 | h1 | h1 <;>
      rw [h1] at hteq <;>
      rw [show sepTask.take _ = _ from rfl] at hteq <;>
      subst hteq <;>
      simp [sepTask, List.cons_prefix_cons, List.cons_append] at hpre

/-! ## Python string helpers on `String` -/

/-- Python `sep in s` (substring containment). -/
def pyIn (needle hay : String) : Bool :=
  containsSub needle.toList hay.toList

/-- Python `s.split(sep)` for a non-empty separator. -/
def pySplit (s sep : String) : List String :=
  (splitOnSub sep.toList s.toList).map String.mk

/-- Python `s[:n]` slicing (by characters). -/
def pySlice (s : String) (n : Nat) : String :=
  String.mk (s.toList.take n)

/-- Python list indexing `l[i]` with negative-index support; `none` models
an `IndexError`. -/
def pyIdx (l : List String) (i : Int) : Option String :=
  let j : Int := if i < 0 then (l.length : Int) + i else i
  if 0 ≤ j ∧ j < (l.length : Int) then l[j.toNat]? else none

/-- Python truthiness of an optional string (`None` and `""` are falsy). -/
def truthyOpt : Option String → Bool
  | none => false
  | some s => !s.isEmpty

/-! ## Data model of one process run

A run of `scorer.py`'s `main` is determined by the configuration read from
the environment, the outcomes of the external calls it makes, and the
delivery point of a possible SIGTERM.  The Work Unit (the body of `main`'s
`try` block up to `send_task_success`: file download, spreadsheet
processing, AI scoring, optional DB/S3/PDF steps) is treated as a black
box that either produces a serialized result payload or raises. -/

/-- A raised Python exception: its type name and its message. -/
structure PyError where
  name : String
  msg : String
  deriving DecidableEq, Repr

/-- Abbreviated model of `traceback.format_exc()`: the rendered traceback
ends with the exception's type name and message, so it contains the
diagnostic text of the exception. -/
def format_exc (e : PyError) : String :=
  "Traceback (most recent call last):\n" ++ e.name ++ ": " ++ e.msg

/-- Observable events of a run: function invocations of the lifecycle
helpers, and the outbound ECS / Step Functions API requests they issue.
`log` records a `print` call. -/
inductive Ev where
  | log (msg : String)
  | callEnable (arn : Option String)
  | callDisable (arn : Option String)
  | ecsProtect (cluster : String) (arn : String) (protectionEnabled : Bool)
      (expiresInMinutes : Option Nat)
  | callSendSuccess (token : Option String) (output : String)
  | sfnSendTaskSuccess (taskToken : String) (output : String)
  | callSendFailure (token : Option String) (error : String) (cause : String)
  | sfnSendTaskFailure (taskToken : String) (error : String) (cause : String)
  deriving DecidableEq, Repr

/-- How the process ended. -/
inductive ExitStatus where
  | exited (code : Nat)
  | killedBySignal (sig : Nat)
  deriving DecidableEq, Repr

/-- Delivery point of a SIGTERM, at the granularity relevant to the
orchestrator: never; after `enable_task_protection` returns but before
`signal.signal` installs the handler (the default disposition then kills
the process); after the handler is installed but before the `try` block
is entered; or while the `try` block is executing (before
`send_task_success` runs). -/
inductive SigPoint where
  | noSignal
  | beforeRegister
  | afterRegister
  | duringWork
  deriving DecidableEq, Repr

/-- Environment of one run: configuration plus the outcomes of the
external calls.  `work` is the Work Unit's outcome (serialized success
payload, or the exception it raises).  The failure-callback transport is
modelled as not raising; the success-callback transport may raise
(`sfnSuccessErr`), which `main`'s `except` block then handles. -/
structure Env where
  taskToken : Option String
  metadataUri : Option String
  metadataResponse : Except PyError (Option String)
  ecsEnableErr : Option PyError
  ecsDisableErr : Option PyError
  sfnSuccessErr : Option PyError
  work : Except PyError String
  sigterm : SigPoint
  deriving Repr

/-! ## The lifecycle helpers (from `scorer.py`) -/

/-- Model of `get_task_arn` (scorer.py lines 78-89): returns the task ARN
from the metadata endpoint, or `none` on any failure, never raising. -/
def get_task_arn (env : Env) : Option String × List Ev :=
  match env.metadataUri with
  | none => (none, [])
  | some u =>
    if u.isEmpty then (none, [])
    else
      match env.metadataResponse with
      | .error e => (none, [.log ("Could not fetch task ARN: " ++ e.msg)])
      | .ok arn? => (arn?, [])

/-- Cluster derivation in `enable_task_protection` (scorer.py line 97):
`task_arn.split(':task/')[1].split('/')[0] if '/task/' in task_arn else None`,
with `.error` modelling an `IndexError`. -/
def enableCluster (arn : String) : Except PyError (Option String) :=
  if pyIn "/task/" arn then
    match pyIdx (pySplit arn ":task/") 1 with
    | none => .error ⟨"IndexError", "list index out of range"⟩
    | some seg =>
      match pyIdx (pySplit seg "/") 0 with
      | none => .error ⟨"IndexError", "list index out of range"⟩
      | some c => .ok (some c)
  else .ok none

/-- Fallback cluster derivation (scorer.py lines 100-101 and 119-120):
`parts = task_arn.split('/'); cluster = parts[-2] if len(parts) >= 3 else None`. -/
def fallbackCluster (arn : String) : Option String :=
  let parts := pySplit arn "/"
  if parts.length ≥ 3 then pyIdx parts (-2) else none

/-- Model of `enable_task_protection` (scorer.py lines 92-111).  The
leading `callEnable` event records that the function was invoked; the
`ecsProtect` event records the issued `update_task_protection` request.
All exceptions are caught and logged. -/
def enable_task_protection (arn? : Option String) (env : Env) : List Ev :=
  .callEnable arn? ::
    match arn? with
    | none => []
    | some arn =>
      if arn.isEmpty then []
      else
        match enableCluster arn with
        | .error e => [.log ("Could not enable task protection: " ++ e.msg)]
        | .ok c0 =>
          match (if truthyOpt c0 then c0 else fallbackCluster arn) with
          | none => []
          | some cl =>
            if cl.isEmpty then []
            else
              .ecsProtect cl arn true (some 120) ::
                match env.ecsEnableErr with
                | some e => [.log ("Could not enable task protection: " ++ e.msg)]
                | none =>
                  [.log ("ECS task protection enabled (cluster=" ++ cl ++ ")")]

/-- Model of `disable_task_protection` (scorer.py lines 114-129). -/
def disable_task_protection (arn? : Option String) (env : Env) : List Ev :=
  .callDisable arn? ::
    match arn? with
    | none => []
    | some arn =>
      if arn.isEmpty then []
      else
        match fallbackCluster arn with
        | none => []
        | some cl =>
          if cl.isEmpty then []
          else
            .ecsProtect cl arn false none ::
              match env.ecsDisableErr with
              | some e => [.log ("Could not disable task protection: " ++ e.msg)]
              | none => [.log "ECS task protection disabled"]

/-- Model of `send_task_success` (scorer.py lines 136-145).  Returns the
events plus the exception raised by the SFN transport, if any (the
`print` after the call is skipped when the transport raises). -/
def send_task_success (token : Option String) (output : String) (env : Env) :
    List Ev × Option PyError :=
  match token with
  | none =>
    ([.callSendSuccess none output,
      .log "No TASK_TOKEN set — skipping SendTaskSuccess"], none)
  | some t =>
    if t.isEmpty then
      ([.callSendSuccess (some t) output,
        .log "No TASK_TOKEN set — skipping SendTaskSuccess"], none)
    else
      match env.sfnSuccessErr with
      | some e =>
        ([.callSendSuccess (some t) output, .sfnSendTaskSuccess t output], some e)
      | none =>
        ([.callSendSuccess (some t) output, .sfnSendTaskSuccess t output,
          .log "SendTaskSuccess sent"], none)

/-- Model of `send_task_failure` (scorer.py lines 148-158).  The submitted
cause is `str(cause)[:256]`. -/
def send_task_failure (token : Option String) (error cause : String) : List Ev :=
  match token with
  | none =>
    [.callSendFailure none error cause,
      .log ("No TASK_TOKEN set — skipping SendTaskFailure (error=" ++ error ++ ")")]
  | some t =>
    if t.isEmpty then
      [.callSendFailure (some t) error cause,
        .log ("No TASK_TOKEN set — skipping SendTaskFailure (error=" ++ error ++ ")")]
    else
      [.callSendFailure (some t) error cause,
        .sfnSendTaskFailure t error (pySlice cause 256),
        .log ("SendTaskFailure sent: " ++ error)]

/-- Model of the nested `sigterm_handler` in `main` (scorer.py lines
504-508): log, disable protection, report `TaskTerminated`, then
`sys.exit(1)` (the raised `SystemExit` is handled by the caller `main`). -/
def sigterm_handler (arn? : Option String) (token : Option String) (env : Env) :
    List Ev :=
  .log "SIGTERM received — reporting failure to Step Functions" ::
    (disable_task_protection arn? env ++
      send_task_failure token "TaskTerminated"
        "ECS terminated the container via SIGTERM")

/-- Model of `main` (scorer.py lines 494-603).  A SIGTERM delivered before
the handler is registered kills the process (default disposition); one
delivered later runs the handler, whose `SystemExit` is not caught by
`except Exception` but does trigger the `finally` block when the `try`
block had been entered.  On the normal path, the `try` body runs the Work
Unit and then `send_task_success`; an exception from either is caught by
the `except` block, which reports failure and exits 1; the `finally`
block always disables task protection afterwards. -/
def main (env : Env) : List Ev × ExitStatus :=
  let arnEv := get_task_arn env
  let arn? := arnEv.1
  let ev0 := arnEv.2
  let ev1 := enable_task_protection arn? env
  match env.sigterm with
  | .beforeRegister => (ev0 ++ ev1, .killedBySignal 15)
  | .afterRegister =>
    (ev0 ++ ev1 ++ sigterm_handler arn? env.taskToken env, .exited 1)
  | .duringWork =>
    (ev0 ++ ev1 ++ sigterm_handler arn? env.taskToken env ++
      disable_task_protection arn? env, .exited 1)
  | .noSignal =>
    match env.work with
    | .error e =>
      let cause := format_exc e
      (ev0 ++ ev1 ++
        (.log ("ERROR: " ++ e.msg ++ "\n" ++ cause) ::
          send_task_failure env.taskToken e.name cause) ++
        disable_task_protection arn? env, .exited 1)
    | .ok output =>
      let sendRes := send_task_success env.taskToken output env
      match sendRes.2 with
      | none =>
        (ev0 ++ ev1 ++ sendRes.1 ++ disable_task_protection arn? env, .exited 0)
      | some e =>
        let cause := format_exc e
        (ev0 ++ ev1 ++ sendRes.1 ++
          (.log ("ERROR: " ++ e.msg ++ "\n" ++ cause) ::
            send_task_failure env.taskToken e.name cause) ++
          disable_task_protection arn? env, .exited 1)

/-! ## `combine_scope_data` (scorer.py lines 278-296; the identical
function appears in lambda_handler.py lines 197-217)

Python dicts are modelled as association lists with unique keys:
assignment replaces in place, or appends a new key at the end; lookup
returns the first (hence only) binding. -/

/-- Scope data for one file.  The entries of `sheet_details` are opaque
to `combine_scope_data`, so their type is a parameter. -/
structure ScopeData (α : Type) where
  total_sheets : Int
  sheets_with_scope : Int
  scope_indicator_counts : List (String × Int)
  sheet_details : List α
  deriving Repr

/-- Python `d.get(k, dflt)`. -/
def dictGetD (d : List (String × Int)) (k : String) (dflt : Int) : Int :=
  match d.find? (fun p => p.1 == k) with
  | some p => p.2
  | none => dflt

/-- Python `d[k] = v`: replace in place, or append a new binding. -/
def dictSet (d : List (String × Int)) (k : String) (v : Int) :
    List (String × Int) :=
  match d with
  | [] => [(k, v)]
  | p :: rest => if p.1 == k then (k, v) :: rest else p :: dictSet rest k v

/-- One iteration of the `for sd in scope_data_list` loop. -/
def combineStep {α : Type} (acc sd : ScopeData α) : ScopeData α :=
  { total_sheets := acc.total_sheets + sd.total_sheets
    sheets_with_scope := acc.sheets_with_scope + sd.sheets_with_scope
    scope_indicator_counts :=
      sd.scope_indicator_counts.foldl
        (fun c kv => dictSet c kv.1 (dictGetD c kv.1 0 + kv.2))
        acc.scope_indicator_counts
    sheet_details := acc.sheet_details ++ sd.sheet_details }

/-- Model of `combine_scope_data`: fold the inputs into the zero summary,
then cap `sheet_details` at the first 50 entries. -/
def combine_scope_data {α : Type} (l : List (ScopeData α)) : ScopeData α :=
  let c := l.foldl combineStep ⟨0, 0, [], []⟩
  { c with sheet_details := c.sheet_details.take 50 }

/-! ## Trace predicates -/

/-- Event is an invocation of `enable_task_protection`. -/
def isCallEnable : Ev → Bool
  | .callEnable _ => true
  | _ => false

/-- Event is an invocation of `disable_task_protection`. -/
def isCallDisable : Ev → Bool
  | .callDisable _ => true
  | _ => false

/-- Event is an invocation of `send_task_success`. -/
def isCallSendSuccess : Ev → Bool
  | .callSendSuccess _ _ => true
  | _ => false

/-- Event is an invocation of `send_task_failure`. -/
def isCallSendFailure : Ev → Bool
  | .callSendFailure _ _ _ => true
  | _ => false

/-- Event is an invocation of `send_task_failure` with the given error kind. -/
def isCallSendFailureKind (k : String) : Ev → Bool
  | .callSendFailure _ e _ => e == k
  | _ => false

/-- Event is an outbound ECS `update_task_protection` request. -/
def isEcsCall : Ev → Bool
  | .ecsProtect _ _ _ _ => true
  | _ => false

/-- Event is an outbound Step Functions callback-transport request. -/
def isSfnCall : Ev → Bool
  | .sfnSendTaskSuccess _ _ => true
  | .sfnSendTaskFailure _ _ _ => true
  | _ => false

/-- Event is an outbound `SendTaskSuccess` transport request. -/
def isSfnSuccess : Ev → Bool
  | .sfnSendTaskSuccess _ _ => true
  | _ => false

/-- Event is an outbound `SendTaskFailure` transport request. -/
def isSfnFailure : Ev → Bool
  | .sfnSendTaskFailure _ _ _ => true
  | _ => false

/-- Some `p`-event occurs strictly before the first `q`-event of the
trace (when the trace has no `q`-event: anywhere in the trace). -/
def precedes (p q : Ev → Bool) (t : List Ev) : Bool :=
  (t.takeWhile (fun e => !q e)).any p

/-! ## Counting events in the component traces -/

theorem countP_get_task_arn_zero (env : Env) (P : Ev → Bool)
    (hlog : ∀ m, P (.log m) = false) :
    ((get_task_arn env).2).countP P = 0 := by
  rw [get_task_arn]
  rcases env.metadataUri with _ | u
  · rfl
  · rcases hu : u.isEmpty <;> rcases env.metadataResponse with e | a <;>
      simp [hu, List.countP_cons, hlog]

theorem countP_enable_zero (arn? : Option String) (env : Env) (P : Ev → Bool)
    (hlog : ∀ m, P (.log m) = false)
    (hen : ∀ a, P (.callEnable a) = false)
    (hecs : ∀ c a b x, P (.ecsProtect c a b x) = false) :
    (enable_task_protection arn? env).countP P = 0 := by
  rw [enable_task_protection.eq_def]
  rcases arn? with _ | arn
  · simp [List.countP_cons, hen]
  · simp only [List.countP_cons, hen, if_false]
    split
    · simp
    · split
      · simp [List.countP_cons, hlog]
      · split
        · simp
        · split
          · simp
          · split <;> simp [List.countP_cons, hlog, hecs]

theorem countP_disable_zero (arn? : Option String) (env : Env) (P : Ev → Bool)
    (hlog : ∀ m, P (.log m) = false)
    (hdis : ∀ a, P (.callDisable a) = false)
    (hecs : ∀ c a b x, P (.ecsProtect c a b x) = false) :
    (disable_task_protection arn? env).countP P = 0 := by
  rw [disable_task_protection.eq_def]
  rcases arn? with _ | arn
  · simp [List.countP_cons, hdis]
  · simp only [List.countP_cons, hdis, if_false]
    split
    · simp
    · split
      · simp
      · split
        · simp
        · split <;> simp [List.countP_cons, hlog, hecs]

theorem countP_sendS_zero (token : Option String) (output : String) (env : Env)
    (P : Ev → Bool)
    (hlog : ∀ m, P (.log m) = false)
    (hcs : ∀ t o, P (.callSendSuccess t o) = false)
    (hsfn : ∀ t o, P (.sfnSendTaskSuccess t o) = false) :
    ((send_task_success token output env).1).countP P = 0 := by
  rw [send_task_success.eq_def]
  rcases token with _ | t
  · simp [List.countP_cons, hlog, hcs]
  · rcases ht : t.isEmpty <;> rcases env.sfnSuccessErr with _ | e <;>
      simp [ht, List.countP_cons, hlog, hcs, hsfn]

theorem countP_sendF_zero (token : Option String) (error cause : String)
    (P : Ev → Bool)
    (hlog : ∀ m, P (.log m) = false)
    (hcf : ∀ t e c, P (.callSendFailure t e c) = false)
    (hsfn : ∀ t e c, P (.sfnSendTaskFailure t e c) = false) :
    (send_task_failure token error cause).countP P = 0 := by
  rw [send_task_failure.eq_def]
  rcases token with _ | t
  · simp [List.countP_cons, hlog, hcf]
  · rcases ht : t.isEmpty <;>
      simp [ht, List.countP_cons, hlog, hcf, hsfn]

theorem countP_enable_callEnable (arn? : Option String) (env : Env) :
    (enable_task_protection arn? env).countP isCallEnable = 1 := by
  rw [enable_task_protection.eq_def]
  rcases arn? with _ | arn
  · rfl
  · simp only [List.countP_cons, isCallEnable]
    split
    · rfl
    · split
      · simp [List.countP_cons, isCallEnable]
      · split
        · rfl
        · split
          · rfl
          · split <;> simp [List.countP_cons, isCallEnable]

theorem countP_disable_callDisable (arn? : Option String) (env : Env) :
    (disable_task_protection arn? env).countP isCallDisable = 1 := by
  rw [disable_task_protection.eq_def]
  rcases arn? with _ | arn
  · rfl
  · simp only [List.countP_cons, isCallDisable]
    split
    · rfl
    · split
      · rfl
      · split
        · rfl
        · split <;> simp [List.countP_cons, isCallDisable]

theorem countP_sendS_callSendSuccess (token : Option String) (output : String)
    (env : Env) :
    ((send_task_success token output env).1).countP isCallSendSuccess = 1 := by
  rw [send_task_success.eq_def]
  rcases token with _ | t
  · rfl
  · rcases ht : t.isEmpty <;> rcases env.sfnSuccessErr with _ | e <;>
      simp [ht, List.countP_cons, isCallSendSuccess]

theorem countP_sendS_sfn (token : Option String) (output : String) (env : Env) :
    ((send_task_success token output env).1).countP isSfnCall =
      if truthyOpt token then 1 else 0 := by
  rw [send_task_success.eq_def]
  rcases token with _ | t
  · rfl
  · rcases ht : t.isEmpty <;> rcases env.sfnSuccessErr with _ | e <;>
      simp [ht, List.countP_cons, isSfnCall, truthyOpt]

theorem countP_sendF_callSendFailure (token : Option String)
    (error cause : String) :
    (send_task_failure token error cause).countP isCallSendFailure = 1 := by
  rw [send_task_failure.eq_def]
  rcases token with _ | t
  · rfl
  · rcases ht : t.isEmpty <;>
      simp [ht, List.countP_cons, isCallSendFailure]

theorem countP_sendF_kind (token : Option String) (error cause k : String) :
    (send_task_failure token error cause).countP (isCallSendFailureKind k) =
      if error == k then 1 else 0 := by
  rw [send_task_failure.eq_def]
  rcases token with _ | t
  · rcases h : error == k <;>
      simp [List.countP_cons, isCallSendFailureKind, h]
  · rcases ht : t.isEmpty <;> rcases h : error == k <;>
      simp [ht, List.countP_cons, isCallSendFailureKind, h]

theorem countP_sendF_sfn (token : Option String) (error cause : String) :
    (send_task_failure token error cause).countP isSfnCall =
      if truthyOpt token then 1 else 0 := by
  rw [send_task_failure.eq_def]
  rcases token with _ | t
  · rfl
  · rcases ht : t.isEmpty <;>
      simp [ht, List.countP_cons, isSfnCall, truthyOpt]

/-! ## Decomposition of `main` along its control paths -/

theorem sendS_exc (token : Option String) (output : String) (env : Env) :
    (send_task_success token output env).2 =
      if truthyOpt token then env.sfnSuccessErr else none := by
  rw [send_task_success.eq_def]
  rcases token with _ | t
  · rfl
  · rcases ht : t.isEmpty <;> rcases env.sfnSuccessErr with _ | e <;>
      simp [ht, truthyOpt]

theorem main_beforeRegister (env : Env) (hsig : env.sigterm = .beforeRegister) :
    main env =
      ((get_task_arn env).2 ++ enable_task_protection (get_task_arn env).1 env,
        .killedBySignal 15) := by
  simp only [main, hsig]

theorem main_afterRegister (env : Env) (hsig : env.sigterm = .afterRegister) :
    main env =
      ((get_task_arn env).2 ++ enable_task_protection (get_task_arn env).1 env ++
        sigterm_handler (get_task_arn env).1 env.taskToken env, .exited 1) := by
  simp only [main, hsig]

theorem main_duringWork (env : Env) (hsig : env.sigterm = .duringWork) :
    main env =
      ((get_task_arn env).2 ++ enable_task_protection (get_task_arn env).1 env ++
        sigterm_handler (get_task_arn env).1 env.taskToken env ++
        disable_task_protection (get_task_arn env).1 env, .exited 1) := by
  simp only [main, hsig]

theorem main_noSignal_error (env : Env) (e : PyError)
    (hsig : env.sigterm = .noSignal) (hwork : env.work = .error e) :
    main env =
      ((get_task_arn env).2 ++ enable_task_protection (get_task_arn env).1 env ++
        (.log ("ERROR: " ++ e.msg ++ "\n" ++ format_exc e) ::
          send_task_failure env.taskToken e.name (format_exc e)) ++
        disable_task_protection (get_task_arn env).1 env, .exited 1) := by
  simp only [main, hsig, hwork]

theorem main_noSignal_ok_sendOk (env : Env) (o : String)
    (hsig : env.sigterm = .noSignal) (hwork : env.work = .ok o)
    (hsend : (send_task_success env.taskToken o env).2 = none) :
    main env =
      ((get_task_arn env).2 ++ enable_task_protection (get_task_arn env).1 env ++
        (send_task_success env.taskToken o env).1 ++
        disable_task_protection (get_task_arn env).1 env, .exited 0) := by
  simp only [main, hsig, hwork, hsend]

theorem main_noSignal_ok_sendErr (env : Env) (o : String) (e : PyError)
    (hsig : env.sigterm = .noSignal) (hwork : env.work = .ok o)
    (hsend : (send_task_success env.taskToken o env).2 = some e) :
    main env =
      ((get_task_arn env).2 ++ enable_task_protection (get_task_arn env).1 env ++
        (send_task_success env.taskToken o env).1 ++
        (.log ("ERROR: " ++ e.msg ++ "\n" ++ format_exc e) ::
          send_task_failure env.taskToken e.name (format_exc e)) ++
        disable_task_protection (get_task_arn env).1 env, .exited 1) := by
  simp only [main, hsig, hwork, hsend]

/-! ## Ordering helpers -/

theorem takeWhile_append_all {α : Type} (r : α → Bool) (A B : List α)
    (h : ∀ a ∈ A, r a = true) :
    (A ++ B).takeWhile r = A ++ B.takeWhile r := by
  induction A with
  | nil => simp
  | cons a A' ih =>
    have ha : r a = true := h a (by simp)
    simp only [List.cons_append, List.takeWhile_cons, ha, if_true]
    rw [ih (fun x hx => h x (by simp [hx]))]

theorem any_of_countP_pos {l : List Ev} {p : Ev → Bool}
    (h : 0 < l.countP p) : l.any p = true := by
  rw [List.any_eq_true]
  exact List.countP_pos.mp h

theorem precedes_append (p q : Ev → Bool) (A B : List Ev)
    (hq : A.countP q = 0) (hp : A.any p = true) :
    precedes p q (A ++ B) = true := by
  unfold precedes
  rw [takeWhile_append_all (fun e => !q e) A B
    (fun a ha => by simp [List.countP_eq_zero.mp hq a ha])]
  simp only [List.any_append, hp, Bool.true_or]

/-- A suffix of a non-empty list occurs in it as a substring. -/
theorem containsSub_suffix {sep l : List Char} (h : sep <:+ l) (hl : l ≠ []) :
    containsSub sep l = true := by
  cases hsep : sep with
  | nil =>
    cases l with
    | nil => exact absurd rfl hl
    | cons c rest => simp [containsSub, findSub, List.isPrefixOf]
  | cons a s =>
    rw [← hsep]
    exact (containsSub_infix_iff (by simp [hsep])).mpr (h.isInfix)

/-! ## Main-level counting helpers -/

theorem enable_none (env : Env) :
    enable_task_protection none env = [.callEnable none] := rfl

theorem disable_none (env : Env) :
    disable_task_protection none env = [.callDisable none] := rfl

/-- How often `disable_task_protection` is invoked, on every path of `main`:
never when the SIGTERM kills the process before the handler is registered;
twice when it interrupts the `try` block (handler plus `finally`); exactly
once otherwise. -/
theorem countDisable_main (env : Env) :
    ((main env).1).countP isCallDisable =
      (match env.sigterm with
        | .beforeRegister => 0
        | .duringWork => 2
        | _ => 1) := by
  have hz0 := fun env' => countP_get_task_arn_zero env' isCallDisable (fun _ => rfl)
  have hz1 := fun a? env' => countP_enable_zero a? env' isCallDisable
    (fun _ => rfl) (fun _ => rfl) (fun _ _ _ _ => rfl)
  have hzS := fun t o env' => countP_sendS_zero t o env' isCallDisable
    (fun _ => rfl) (fun _ _ => rfl) (fun _ _ => rfl)
  have hzF := fun t e c => countP_sendF_zero t e c isCallDisable
    (fun _ => rfl) (fun _ _ _ => rfl) (fun _ _ _ => rfl)
  rcases hsig : env.sigterm with _ | _ | _ | _
  · rcases hwork : env.work with e | o
    · rw [main_noSignal_error env e hsig hwork]
      simp [List.countP_append, List.countP_cons, hz0, hz1, hzF,
        countP_disable_callDisable, isCallDisable]
    · rcases hsend : (send_task_success env.taskToken o env).2 with _ | e
      · rw [main_noSignal_ok_sendOk env o hsig hwork hsend]
        simp [List.countP_append, hz0, hz1, hzS, countP_disable_callDisable]
      · rw [main_noSignal_ok_sendErr env o e hsig hwork hsend]
        simp [List.countP_append, List.countP_cons, hz0, hz1, hzS, hzF,
          countP_disable_callDisable, isCallDisable]
  · rw [main_beforeRegister env hsig]
    simp [List.countP_append, hz0, hz1]
  · rw [main_afterRegister env hsig]
    simp [sigterm_handler, List.countP_append, List.countP_cons, hz0, hz1,
      hzF, countP_disable_callDisable, isCallDisable]
  · rw [main_duringWork env hsig]
    simp [sigterm_handler, List.countP_append, List.countP_cons, hz0, hz1,
      hzF, countP_disable_callDisable, isCallDisable]

/-- `send_task_success` is invoked exactly once when the Work Unit runs to
completion without a signal, and never on any other path. -/
theorem countSendSuccess_main (env : Env) :
    ((main env).1).countP isCallSendSuccess =
      (match env.sigterm, env.work with
        | .noSignal, .ok _ => 1
        | _, _ => 0) := by
  have hz0 := fun env' => countP_get_task_arn_zero env' isCallSendSuccess (fun _ => rfl)
  have hz1 := fun a? env' => countP_enable_zero a? env' isCallSendSuccess
    (fun _ => rfl) (fun _ => rfl) (fun _ _ _ _ => rfl)
  have hzD := fun a? env' => countP_disable_zero a? env' isCallSendSuccess
    (fun _ => rfl) (fun _ => rfl) (fun _ _ _ _ => rfl)
  have hzF := fun t e c => countP_sendF_zero t e c isCallSendSuccess
    (fun _ => rfl) (fun _ _ _ => rfl) (fun _ _ _ => rfl)
  rcases hsig : env.sigterm with _ | _ | _ | _
  · rcases hwork : env.work with e | o
    · rw [main_noSignal_error env e hsig hwork]
      simp [List.countP_append, List.countP_cons, hz0, hz1, hzF, hzD,
        isCallSendSuccess]
    · rcases hsend : (send_task_success env.taskToken o env).2 with _ | e
      · rw [main_noSignal_ok_sendOk env o hsig hwork hsend]
        simp [List.countP_append, hz0, hz1, hzD, countP_sendS_callSendSuccess]
      · rw [main_noSignal_ok_sendErr env o e hsig hwork hsend]
        simp [List.countP_append, List.countP_cons, hz0, hz1, hzD, hzF,
          countP_sendS_callSendSuccess, isCallSendSuccess]
  · rw [main_beforeRegister env hsig]
    simp [List.countP_append, hz0, hz1]
  · rw [main_afterRegister env hsig]
    simp [sigterm_handler, List.countP_append, List.countP_cons, hz0, hz1,
      hzF, hzD, isCallSendSuccess]
  · rw [main_duringWork env hsig]
    simp [sigterm_handler, List.countP_append, List.countP_cons, hz0, hz1,
      hzF, hzD, isCallSendSuccess]

/-- On the two handled-signal paths, `send_task_failure` is invoked exactly
once with kind "TaskTerminated". -/
theorem countTT_main (env : Env)
    (h : env.sigterm = .afterRegister ∨ env.sigterm = .duringWork) :
    ((main env).1).countP (isCallSendFailureKind "TaskTerminated") = 1 := by
  have hz0 := fun env' => countP_get_task_arn_zero env'
    (isCallSendFailureKind "TaskTerminated") (fun _ => rfl)
  have hz1 := fun a? env' => countP_enable_zero a? env'
    (isCallSendFailureKind "TaskTerminated")
    (fun _ => rfl) (fun _ => rfl) (fun _ _ _ _ => rfl)
  have hzD := fun a? env' => countP_disable_zero a? env'
    (isCallSendFailureKind "TaskTerminated")
    (fun _ => rfl) (fun _ => rfl) (fun _ _ _ _ => rfl)
  have hTT := countP_sendF_kind env.taskToken "TaskTerminated"
    "ECS terminated the container via SIGTERM" "TaskTerminated"
  rcases h with hsig | hsig
  · rw [main_afterRegister env hsig]
    simp only [sigterm_handler, List.countP_append, List.countP_cons, hz0,
      hz1, hzD, hTT]
    simp [isCallSendFailureKind]
  · rw [main_duringWork env hsig]
    simp only [sigterm_handler, List.countP_append, List.countP_cons, hz0,
      hz1, hzD, hTT]
    simp [isCallSendFailureKind]

/-- With no callback token configured, no Step Functions transport request
is ever issued, on any path. -/
theorem countSfn_main_noToken (env : Env) (h : env.taskToken = none) :
    ((main env).1).countP isSfnCall = 0 := by
  have hz0 := fun env' => countP_get_task_arn_zero env' isSfnCall (fun _ => rfl)
  have hz1 := fun a? env' => countP_enable_zero a? env' isSfnCall
    (fun _ => rfl) (fun _ => rfl) (fun _ _ _ _ => rfl)
  have hzD := fun a? env' => countP_disable_zero a? env' isSfnCall
    (fun _ => rfl) (fun _ => rfl) (fun _ _ _ _ => rfl)
  have hS := fun o env' => countP_sendS_sfn none o env'
  have hF := fun e c => countP_sendF_sfn none e c
  simp only [truthyOpt, if_false, Bool.false_eq_true] at hS hF
  rcases hsig : env.sigterm with _ | _ | _ | _
  · rcases hwork : env.work with e | o
    · rw [main_noSignal_error env e hsig hwork]
      simp [List.countP_append, List.countP_cons, hz0, hz1, hzD, h, hF,
        isSfnCall]
    · rcases hsend : (send_task_success env.taskToken o env).2 with _ | e
      · rw [main_noSignal_ok_sendOk env o hsig hwork hsend]
        simp [List.countP_append, hz0, hz1, hzD, h, hS]
      · rw [main_noSignal_ok_sendErr env o e hsig hwork hsend]
        simp [List.countP_append, List.countP_cons, hz0, hz1, hzD, h, hS, hF,
          isSfnCall]
  · rw [main_beforeRegister env hsig]
    simp [List.countP_append, hz0, hz1]
  · rw [main_afterRegister env hsig]
    simp [sigterm_handler, List.countP_append, List.countP_cons, hz0, hz1,
      hzD, h, hF, isSfnCall]
  · rw [main_duringWork env hsig]
    simp [sigterm_handler, List.countP_append, List.countP_cons, hz0, hz1,
      hzD, h, hF, isSfnCall]

/-! ## Cluster derivation from a documented-form task ARN -/

theorem toList_append (a b : String) : (a ++ b).toList = a.toList ++ b.toList := by
  cases a
  cases b
  rfl

theorem mk_toList (s : String) : String.mk s.toList = s := by
  cases s
  rfl

theorem containsSub_eq_false_of_not_mem {c : Char} {sep l : List Char}
    (hc : c ∈ sep) (hl : c ∉ l) (hne : sep ≠ []) :
    containsSub sep l = false := by
  rcases h : containsSub sep l
  · rfl
  · exact absurd ((containsSub_infix_iff hne).mp h) (not_infix_of_not_mem hc hl)

theorem splitOnSub_sepTask_doc (A B : List Char) (hA : '/' ∉ A)
    (hB : ':' ∉ B) :
    splitOnSub sepTask (A ++ (sepTask ++ B)) = [A, B] := by
  rw [splitOnSub_boundary A B (by decide) (sepTask_no_straddle hA)]
  rw [splitOnSub_of_not_contains (by decide)
    (containsSub_eq_false_of_not_mem (by decide) hB (by decide))]

theorem splitOnSub_slash_two (A B : List Char) (hA : '/' ∉ A)
    (hB : '/' ∉ B) :
    splitOnSub ['/'] (A ++ (['/'] ++ B)) = [A, B] := by
  rw [splitOnSub_boundary A B (by decide) (single_no_straddle hA)]
  rw [splitOnSub_of_not_contains (by decide)
    (containsSub_eq_false_of_not_mem (by simp) hB (by decide))]

theorem splitOnSub_slash_three (A C T : List Char) (hA : '/' ∉ A)
    (hC : '/' ∉ C) (hT : '/' ∉ T) :
    splitOnSub ['/'] (A ++ (['/'] ++ (C ++ (['/'] ++ T)))) = [A, C, T] := by
  rw [splitOnSub_boundary A (C ++ (['/'] ++ T)) (by decide)
    (single_no_straddle hA)]
  rw [splitOnSub_slash_two C T hC hT]

/-- The documented TaskARN format (scorer.py line 99):
`arn:aws:ecs:region:account:task/cluster/taskid`. -/
def docArn (region acct cluster tid : String) : String :=
  "arn:aws:ecs:" ++ region ++ ":" ++ acct ++ ":task/" ++ cluster ++ "/" ++ tid

theorem toList_colon : (":" : String).toList = [':'] := rfl

theorem toList_sepTask : (":task/" : String).toList = sepTask := rfl

theorem toList_slash : ("/" : String).toList = ['/'] := rfl

theorem str_ext {s₁ s₂ : String} (h : s₁.toList = s₂.toList) : s₁ = s₂ := by
  cases s₁
  cases s₂
  cases h
  rfl

theorem mk_append (l₁ l₂ : List Char) :
    String.mk (l₁ ++ l₂) = String.mk l₁ ++ String.mk l₂ := rfl

theorem toList_mk (l : List Char) : (String.mk l).toList = l := rfl

theorem toList_colonTask : (":task" : String).toList = [':', 't', 'a', 's', 'k'] := rfl

theorem slash_not_in_lit : '/' ∉ "arn:aws:ecs:".toList := by decide

theorem docArn_toList (r a c t : String) :
    (docArn r a c t).toList =
      ("arn:aws:ecs:".toList ++ (r.toList ++ ([':'] ++ a.toList))) ++
        (sepTask ++ (c.toList ++ (['/'] ++ t.toList))) := by
  simp [docArn, toList_append, toList_colon, toList_sepTask, toList_slash,
    sepTask, List.append_assoc]

theorem pySplit_docArn_sepTask (r a c t : String)
    (hr : '/' ∉ r.toList) (ha : '/' ∉ a.toList)
    (hc : ':' ∉ c.toList) (ht : ':' ∉ t.toList) :
    pySplit (docArn r a c t) ":task/" =
      ["arn:aws:ecs:" ++ r ++ ":" ++ a, c ++ "/" ++ t] := by
  unfold pySplit
  rw [toList_sepTask, docArn_toList]
  rw [splitOnSub_sepTask_doc _ _
    (by simp [List.mem_append, slash_not_in_lit]
        exact ⟨hr, ha⟩)
    (by simp [List.mem_append]
        exact ⟨hc, ht⟩)]
  have h1 : String.mk ("arn:aws:ecs:".toList ++ (r.toList ++ ([':'] ++ a.toList))) =
      "arn:aws:ecs:" ++ r ++ ":" ++ a := by
    apply str_ext
    simp [toList_mk, toList_append, toList_colon, List.append_assoc]
  have h2 : String.mk (c.toList ++ (['/'] ++ t.toList)) = c ++ "/" ++ t := by
    apply str_ext
    simp [toList_mk, toList_append, toList_slash, List.append_assoc]
  simp only [List.map_cons, List.map_nil, h1, h2]

theorem pySplit_docArn_slash (r a c t : String)
    (hr : '/' ∉ r.toList) (ha : '/' ∉ a.toList)
    (hc : '/' ∉ c.toList) (ht : '/' ∉ t.toList) :
    pySplit (docArn r a c t) "/" =
      ["arn:aws:ecs:" ++ r ++ ":" ++ a ++ ":task", c, t] := by
  unfold pySplit
  rw [toList_slash, docArn_toList]
  have hshape :
      ("arn:aws:ecs:".toList ++ (r.toList ++ ([':'] ++ a.toList))) ++
        (sepTask ++ (c.toList ++ (['/'] ++ t.toList))) =
      (("arn:aws:ecs:".toList ++ (r.toList ++ ([':'] ++ a.toList))) ++
          [':', 't', 'a', 's', 'k']) ++
        (['/'] ++ (c.toList ++ (['/'] ++ t.toList))) := by
    simp [sepTask, List.append_assoc]
  rw [hshape]
  rw [splitOnSub_slash_three _ _ _
    (by simp [List.mem_append, slash_not_in_lit]
        exact ⟨hr, ha⟩)
    hc ht]
  have h1 : String.mk
      (("arn:aws:ecs:".toList ++ (r.toList ++ ([':'] ++ a.toList))) ++
        [':', 't', 'a', 's', 'k']) =
      "arn:aws:ecs:" ++ r ++ ":" ++ a ++ ":task" := by
    apply str_ext
    simp [toList_mk, toList_append, toList_colon, toList_colonTask,
      List.append_assoc]
  simp only [List.map_cons, List.map_nil, h1, mk_toList]

theorem pySplit_seg_slash (c t : String)
    (hc : '/' ∉ c.toList) (ht : '/' ∉ t.toList) :
    pySplit (c ++ "/" ++ t) "/" = [c, t] := by
  unfold pySplit
  rw [toList_slash]
  have hshape : (c ++ "/" ++ t).toList = c.toList ++ (['/'] ++ t.toList) := by
    simp [toList_append, toList_slash, List.append_assoc]
  rw [hshape, splitOnSub_slash_two _ _ hc ht]
  simp only [List.map_cons, List.map_nil, mk_toList]

theorem str_isEmpty_false {s : String} (h : s ≠ "") : s.isEmpty = false := by
  rcases he : s.isEmpty
  · rfl
  · exact absurd ((String.isEmpty_iff s).mp he) h

theorem docArn_ne_empty (r a c t : String) : docArn r a c t ≠ "" := by
  intro h
  have h2 : (docArn r a c t).toList = [] := by rw [h]; rfl
  rw [docArn_toList] at h2
  have h3 := congrArg List.length h2
  simp [List.length_append] at h3

theorem enableCluster_not_in {arn : String}
    (h : pyIn "/task/" arn = false) : enableCluster arn = .ok none := by
  simp [enableCluster, h]

theorem enableCluster_docArn (r a c t : String)
    (hr : '/' ∉ r.toList) (ha : '/' ∉ a.toList)
    (hcS : '/' ∉ c.toList) (hcC : ':' ∉ c.toList)
    (htS : '/' ∉ t.toList) (htC : ':' ∉ t.toList)
    (hin : pyIn "/task/" (docArn r a c t) = true) :
    enableCluster (docArn r a c t) = .ok (some c) := by
  simp only [enableCluster, hin, if_true]
  rw [pySplit_docArn_sepTask r a c t hr ha hcC htC]
  have h1 : pyIdx ["arn:aws:ecs:" ++ r ++ ":" ++ a, c ++ "/" ++ t] 1 =
      some (c ++ "/" ++ t) := by simp [pyIdx]
  rw [h1]
  dsimp only
  rw [pySplit_seg_slash c t hcS htS]
  have h2 : pyIdx [c, t] 0 = some c := by simp [pyIdx]
  rw [h2]

theorem fallbackCluster_docArn (r a c t : String)
    (hr : '/' ∉ r.toList) (ha : '/' ∉ a.toList)
    (hcS : '/' ∉ c.toList) (htS : '/' ∉ t.toList) :
    fallbackCluster (docArn r a c t) = some c := by
  unfold fallbackCluster
  rw [pySplit_docArn_slash r a c t hr ha hcS htS]
  simp [pyIdx]

/-- On a documented-form ARN, `enable_task_protection` always derives the
cluster segment and issues exactly the protect request, whichever branch
of the derivation runs. -/
theorem enable_docArn_trace (r a c t : String) (env : Env)
    (hr : '/' ∉ r.toList) (ha : '/' ∉ a.toList)
    (hcS : '/' ∉ c.toList) (hcC : ':' ∉ c.toList)
    (htS : '/' ∉ t.toList) (htC : ':' ∉ t.toList)
    (hcne : c ≠ "") :
    enable_task_protection (some (docArn r a c t)) env =
      .callEnable (some (docArn r a c t)) ::
        .ecsProtect c (docArn r a c t) true (some 120) ::
          (match env.ecsEnableErr with
            | some e => [.log ("Could not enable task protection: " ++ e.msg)]
            | none =>
              [.log ("ECS task protection enabled (cluster=" ++ c ++ ")")]) := by
  rw [enable_task_protection.eq_def]
  simp only [str_isEmpty_false (docArn_ne_empty r a c t), Bool.false_eq_true,
    if_false]
  rcases hin : pyIn "/task/" (docArn r a c t) with _ | _
  · rw [enableCluster_not_in hin]
    simp only [truthyOpt, if_false, Bool.false_eq_true]
    rw [fallbackCluster_docArn r a c t hr ha hcS htS]
    simp [str_isEmpty_false hcne]
  · rw [enableCluster_docArn r a c t hr ha hcS hcC htS htC hin]
    simp [truthyOpt, str_isEmpty_false hcne]

/-! ## Lemmas for `combine_scope_data` -/

theorem dictGetD_nil (k : String) (dflt : Int) : dictGetD [] k dflt = dflt := rfl

theorem dictGetD_cons (p : String × Int) (rest : List (String × Int))
    (k : String) (dflt : Int) :
    dictGetD (p :: rest) k dflt =
      if p.1 == k then p.2 else dictGetD rest k dflt := by
  simp only [dictGetD, List.find?]
  rcases h : p.1 == k <;> simp [h]

theorem dictGetD_set_eq (d : List (String × Int)) (k : String) (v dflt : Int) :
    dictGetD (dictSet d k v) k dflt = v := by
  induction d with
  | nil => simp [dictSet, dictGetD_cons]
  | cons p rest ih =>
    rw [dictSet]
    rcases h : p.1 == k with _ | _
    · simpa [dictGetD_cons, h] using ih
    · simp [dictGetD_cons]

theorem dictGetD_set_ne (d : List (String × Int)) (k' k : String) (v dflt : Int)
    (h : (k' == k) = false) :
    dictGetD (dictSet d k' v) k dflt = dictGetD d k dflt := by
  induction d with
  | nil => simp [dictSet, dictGetD_cons, dictGetD_nil, h]
  | cons p rest ih =>
    rw [dictSet]
    rcases hp : p.1 == k' with _ | _
    · simp [dictGetD_cons, ih]
    · have hp1 : p.1 = k' := beq_iff_eq.mp hp
      simp [dictGetD_cons, hp1, h]

theorem foldl_step_not_mem (entries : List (String × Int)) (k : String) :
    ∀ c, k ∉ entries.map Prod.fst →
    dictGetD
      (entries.foldl (fun c kv => dictSet c kv.1 (dictGetD c kv.1 0 + kv.2)) c)
      k 0 = dictGetD c k 0 := by
  induction entries with
  | nil => intro c _; rfl
  | cons kv rest ih =>
    intro c hmem
    simp only [List.map_cons, List.mem_cons, not_or] at hmem
    rw [List.foldl_cons, ih _ hmem.2]
    exact dictGetD_set_ne _ _ _ _ _ (beq_eq_false_iff_ne.mpr (fun h => hmem.1 h.symm))

theorem foldl_step_get (entries : List (String × Int)) (k : String) :
    ∀ c, (entries.map Prod.fst).Nodup →
    dictGetD
      (entries.foldl (fun c kv => dictSet c kv.1 (dictGetD c kv.1 0 + kv.2)) c)
      k 0 = dictGetD c k 0 + dictGetD entries k 0 := by
  induction entries with
  | nil => intro c _; simp [dictGetD_nil]
  | cons kv rest ih =>
    intro c hnd
    simp only [List.map_cons, List.nodup_cons] at hnd
    rw [List.foldl_cons]
    rcases hk : kv.1 == k with _ | _
    · rw [ih _ hnd.2]
      rw [dictGetD_set_ne _ _ _ _ _ hk]
      rw [dictGetD_cons, hk]
      simp [Int.add_assoc]
    · have hkeq : kv.1 = k := beq_iff_eq.mp hk
      have hmem : k ∉ rest.map Prod.fst := by
        rw [← hkeq]
        exact hnd.1
      rw [foldl_step_not_mem _ _ _ hmem]
      rw [hkeq, dictGetD_set_eq, dictGetD_cons, hk]
      simp [Int.add_assoc]

theorem foldl_combineStep_counts {α : Type} (l : List (ScopeData α)) (k : String) :
    ∀ acc : ScopeData α,
    (∀ sd ∈ l, (sd.scope_indicator_counts.map Prod.fst).Nodup) →
    dictGetD ((l.foldl combineStep acc).scope_indicator_counts) k 0 =
      dictGetD acc.scope_indicator_counts k 0 +
        (l.map (fun sd => dictGetD sd.scope_indicator_counts k 0)).sum := by
  induction l with
  | nil => intro acc _; simp
  | cons sd rest ih =>
    intro acc hnd
    rw [List.foldl_cons]
    rw [ih _ (fun x hx => hnd x (by simp [hx]))]
    have : (combineStep acc sd).scope_indicator_counts =
        sd.scope_indicator_counts.foldl
          (fun c kv => dictSet c kv.1 (dictGetD c kv.1 0 + kv.2))
          acc.scope_indicator_counts := rfl
    rw [this, foldl_step_get _ _ _ (hnd sd (by simp))]
    simp [Int.add_assoc]

theorem foldl_combineStep_total {α : Type} (l : List (ScopeData α)) :
    ∀ acc : ScopeData α,
    (l.foldl combineStep acc).total_sheets =
      acc.total_sheets + (l.map (fun sd => sd.total_sheets)).sum := by
  induction l with
  | nil => intro acc; simp
  | cons sd rest ih =>
    intro acc
    rw [List.foldl_cons, ih]
    simp [combineStep, Int.add_assoc]

theorem foldl_combineStep_sheets {α : Type} (l : List (ScopeData α)) :
    ∀ acc : ScopeData α,
    (l.foldl combineStep acc).sheets_with_scope =
      acc.sheets_with_scope + (l.map (fun sd => sd.sheets_with_scope)).sum := by
  induction l with
  | nil => intro acc; simp
  | cons sd rest ih =>
    intro acc
    rw [List.foldl_cons, ih]
    simp [combineStep, Int.add_assoc]

theorem foldl_combineStep_details {α : Type} (l : List (ScopeData α)) :
    ∀ acc : ScopeData α,
    (l.foldl combineStep acc).sheet_details =
      acc.sheet_details ++ (l.map (fun sd => sd.sheet_details)).join := by
  induction l with
  | nil => intro acc; simp
  | cons sd rest ih =>
    intro acc
    rw [List.foldl_cons, ih]
    simp [combineStep, List.append_assoc]

/-! ## Helpers for degraded-metadata and no-token runs -/

theorem get_task_arn_fail (env : Env)
    (h : env.metadataUri = none ∨
      (∃ u, env.metadataUri = some u ∧ u.isEmpty = true) ∨
      (∃ e, env.metadataResponse = .error e)) :
    (get_task_arn env).1 = none := by
  rw [get_task_arn]
  rcases hu : env.metadataUri with _ | u
  · rfl
  · rcases he : u.isEmpty with _ | _
    · rcases hr : env.metadataResponse with e | a
      · simp [he]
      · rcases h with h | h | h
        · rw [hu] at h; cases h
        · rcases h with ⟨u', hu', he'⟩
          rw [hu] at hu'
          cases hu'
          rw [he] at he'
          cases he'
        · rcases h with ⟨e, he'⟩
          rw [hr] at he'
          cases he'
    · simp [he]

theorem countEcs_main_noArn (env : Env) (h : (get_task_arn env).1 = none) :
    ((main env).1).countP isEcsCall = 0 := by
  have hz0 := fun env' => countP_get_task_arn_zero env' isEcsCall (fun _ => rfl)
  have hzS := fun t o env' => countP_sendS_zero t o env' isEcsCall
    (fun _ => rfl) (fun _ _ => rfl) (fun _ _ => rfl)
  have hzF := fun t e c => countP_sendF_zero t e c isEcsCall
    (fun _ => rfl) (fun _ _ _ => rfl) (fun _ _ _ => rfl)
  rcases hsig : env.sigterm with _ | _ | _ | _
  · rcases hwork : env.work with e | o
    · rw [main_noSignal_error env e hsig hwork, h]
      simp [List.countP_append, List.countP_cons, hz0, hzF, enable_none,
        disable_none, isEcsCall]
    · rcases hsend : (send_task_success env.taskToken o env).2 with _ | e
      · rw [main_noSignal_ok_sendOk env o hsig hwork hsend, h]
        simp [List.countP_append, hz0, hzS, enable_none, disable_none,
          isEcsCall]
      · rw [main_noSignal_ok_sendErr env o e hsig hwork hsend, h]
        simp [List.countP_append, List.countP_cons, hz0, hzS, hzF,
          enable_none, disable_none, isEcsCall]
  · rw [main_beforeRegister env hsig, h]
    simp [List.countP_append, hz0, enable_none, isEcsCall]
  · rw [main_afterRegister env hsig, h]
    simp [sigterm_handler, List.countP_append, List.countP_cons, hz0, hzF,
      enable_none, disable_none, isEcsCall]
  · rw [main_duringWork env hsig, h]
    simp [sigterm_handler, List.countP_append, List.countP_cons, hz0, hzF,
      enable_none, disable_none, isEcsCall]

theorem countSfn_main_noSignal_tok (env : Env)
    (hsig : env.sigterm = .noSignal) (htok : truthyOpt env.taskToken = true) :
    1 ≤ ((main env).1).countP isSfnCall := by
  rcases hwork : env.work with e | o
  · rw [main_noSignal_error env e hsig hwork]
    have := countP_sendF_sfn env.taskToken e.name (format_exc e)
    simp [htok] at this
    simp [List.countP_append, List.countP_cons, this, isSfnCall]
    omega
  · rcases hsend : (send_task_success env.taskToken o env).2 with _ | e
    · rw [main_noSignal_ok_sendOk env o hsig hwork hsend]
      have := countP_sendS_sfn env.taskToken o env
      simp [htok] at this
      simp [List.countP_append, this]
      omega
    · rw [main_noSignal_ok_sendErr env o e hsig hwork hsend]
      have := countP_sendS_sfn env.taskToken o env
      simp [htok] at this
      simp [List.countP_append, List.countP_cons, this, isSfnCall]
      omega

theorem exit_main_noSignal (env : Env) (hsig : env.sigterm = .noSignal) :
    (main env).2 = .exited 0 ∨ (main env).2 = .exited 1 := by
  rcases hwork : env.work with e | o
  · rw [main_noSignal_error env e hsig hwork]
    right
    rfl
  · rcases hsend : (send_task_success env.taskToken o env).2 with _ | e
    · rw [main_noSignal_ok_sendOk env o hsig hwork hsend]
      left
      rfl
    · rw [main_noSignal_ok_sendErr env o e hsig hwork hsend]
      right
      rfl

theorem exit_main_noToken (env : Env) (h : env.taskToken = none)
    (hsig : env.sigterm = .noSignal) :
    (main env).2 =
      (match env.work with
        | .ok _ => .exited 0
        | .error _ => .exited 1) := by
  rcases hwork : env.work with e | o
  · rw [main_noSignal_error env e hsig hwork]
  · have hsend : (send_task_success env.taskToken o env).2 = none := by
      rw [sendS_exc, h]
      rfl
    rw [main_noSignal_ok_sendOk env o hsig hwork hsend]

/-! ## Last helpers for the claim theorems -/

theorem countP_sendS_sfnSuccess (token : Option String) (output : String)
    (env : Env) :
    ((send_task_success token output env).1).countP isSfnSuccess =
      if truthyOpt token then 1 else 0 := by
  rw [send_task_success.eq_def]
  rcases token with _ | t
  · rfl
  · rcases ht : t.isEmpty <;> rcases env.sfnSuccessErr with _ | e <;>
      simp [ht, List.countP_cons, isSfnSuccess, truthyOpt]

theorem countEnable_main (env : Env) :
    ((main env).1).countP isCallEnable = 1 := by
  have hz0 := fun env' => countP_get_task_arn_zero env' isCallEnable (fun _ => rfl)
  have hzD := fun a? env' => countP_disable_zero a? env' isCallEnable
    (fun _ => rfl) (fun _ => rfl) (fun _ _ _ _ => rfl)
  have hzS := fun t o env' => countP_sendS_zero t o env' isCallEnable
    (fun _ => rfl) (fun _ _ => rfl) (fun _ _ => rfl)
  have hzF := fun t e c => countP_sendF_zero t e c isCallEnable
    (fun _ => rfl) (fun _ _ _ => rfl) (fun _ _ _ => rfl)
  rcases hsig : env.sigterm with _ | _ | _ | _
  · rcases hwork : env.work with e | o
    · rw [main_noSignal_error env e hsig hwork]
      simp [List.countP_append, List.countP_cons, hz0, hzF, hzD,
        countP_enable_callEnable, isCallEnable]
    · rcases hsend : (send_task_success env.taskToken o env).2 with _ | e
      · rw [main_noSignal_ok_sendOk env o hsig hwork hsend]
        simp [List.countP_append, hz0, hzS, hzD, countP_enable_callEnable]
      · rw [main_noSignal_ok_sendErr env o e hsig hwork hsend]
        simp [List.countP_append, List.countP_cons, hz0, hzS, hzF, hzD,
          countP_enable_callEnable, isCallEnable]
  · rw [main_beforeRegister env hsig]
    simp [List.countP_append, hz0, countP_enable_callEnable]
  · rw [main_afterRegister env hsig]
    simp [sigterm_handler, List.countP_append, List.countP_cons, hz0, hzF,
      hzD, countP_enable_callEnable, isCallEnable]
  · rw [main_duringWork env hsig]
    simp [sigterm_handler, List.countP_append, List.countP_cons, hz0, hzF,
      hzD, countP_enable_callEnable, isCallEnable]

theorem sendF_call_mem (token : Option String) (error cause : String) :
    Ev.callSendFailure token error cause ∈ send_task_failure token error cause := by
  rw [send_task_failure.eq_def]
  rcases token with _ | t
  · simp
  · rcases ht : t.isEmpty <;> simp [ht]

theorem format_exc_toList (e : PyError) :
    (format_exc e).toList =
      "Traceback (most recent call last):\n".toList ++
        (e.name.toList ++ ((": ").toList ++ e.msg.toList)) := by
  simp [format_exc, toList_append, List.append_assoc]

theorem format_exc_contains_msg (e : PyError) :
    containsSub e.msg.toList (format_exc e).toList = true := by
  apply containsSub_suffix
  · have h2 : (format_exc e).toList =
        ("Traceback (most recent call last):\n" ++ e.name ++ ": ").toList ++
          e.msg.toList := by
      simp [format_exc, toList_append, List.append_assoc]
    rw [h2]
    exact List.suffix_append _ _
  · intro h
    rw [format_exc_toList] at h
    rw [List.append_eq_nil] at h
    exact absurd h.1 (by decide)

/-! ## Concrete runs used by witnesses and counterexamples -/

/-- A documented-form task ARN. -/
def arnDoc : String := "arn:aws:ecs:us-east-1:123456789012:task/mycluster/abc123"

/-- A fully healthy run: token present, metadata resolves, the Work Unit
succeeds, no signal, and all transports succeed. -/
def envBase : Env :=
  { taskToken := some "tok-1"
    metadataUri := some "http://metadata"
    metadataResponse := .ok (some arnDoc)
    ecsEnableErr := none
    ecsDisableErr := none
    sfnSuccessErr := none
    work := .ok "out"
    sigterm := .noSignal }

/-- Healthy run whose Work Unit raises `ValueError("bad input")`. -/
def envErr : Env := { envBase with work := .error ⟨"ValueError", "bad input"⟩ }

/-- Healthy run interrupted by SIGTERM while the `try` block executes. -/
def envSigWork : Env := { envBase with sigterm := .duringWork }

/-- Run where the SIGTERM arrives after `enable_task_protection` but before
`signal.signal` installs the handler. -/
def envSigGap : Env := { envBase with sigterm := .beforeRegister }

/-- Run whose Work Unit succeeds but whose `SendTaskSuccess` transport
raises. -/
def envSendErr : Env :=
  { envBase with sfnSuccessErr := some ⟨"ClientError", "transport down"⟩ }

/-! ## The claims -/

/-- C1 counterexample: in the concrete healthy successful run `envBase`,
`send_task_success` is invoked exactly once and `send_task_failure` never,
but `disable_task_protection` is NOT invoked before the `send_task_success`
call — the `finally` block runs it only afterwards, so the claim's ordering
is false at this input. -/
theorem C1_counterexample :
    ((main envBase).1).countP isCallSendSuccess = 1 ∧
    ((main envBase).1).countP isCallSendFailure = 0 ∧
    precedes isCallDisable isCallSendSuccess (main envBase).1 = false := by
  decide

/-- C1 (amended): for every run in which the Work Unit succeeds, no signal
is delivered, the success transport does not raise and a callback token is
present, `send_task_success` is invoked exactly once, `send_task_failure`
never, the success request is submitted exactly once, and
`disable_task_protection` is invoked exactly once — after (not before) the
`send_task_success` call. -/
theorem C1_success_reporting (env : Env) (o : String)
    (hsig : env.sigterm = .noSignal) (hwork : env.work = .ok o)
    (herr : env.sfnSuccessErr = none) (htok : truthyOpt env.taskToken = true) :
    ((main env).1).countP isCallSendSuccess = 1 ∧
    ((main env).1).countP isCallSendFailure = 0 ∧
    ((main env).1).countP isSfnSuccess = 1 ∧
    ((main env).1).countP isCallDisable = 1 ∧
    precedes isCallSendSuccess isCallDisable (main env).1 = true := by
  have hsend : (send_task_success env.taskToken o env).2 = none := by
    rw [sendS_exc, htok]
    simp [herr]
  have hdec := main_noSignal_ok_sendOk env o hsig hwork hsend
  refine ⟨?_, ?_, ?_, ?_, ?_⟩
  · rw [countSendSuccess_main env, hsig, hwork]
  · rw [hdec]
    simp [List.countP_append,
      countP_get_task_arn_zero env isCallSendFailure (fun _ => rfl),
      countP_enable_zero _ env isCallSendFailure
        (fun _ => rfl) (fun _ => rfl) (fun _ _ _ _ => rfl),
      countP_sendS_zero _ _ env isCallSendFailure
        (fun _ => rfl) (fun _ _ => rfl) (fun _ _ => rfl),
      countP_disable_zero _ env isCallSendFailure
        (fun _ => rfl) (fun _ => rfl) (fun _ _ _ _ => rfl)]
  · rw [hdec]
    have hS := countP_sendS_sfnSuccess env.taskToken o env
    simp [htok] at hS
    simp [List.countP_append,
      countP_get_task_arn_zero env isSfnSuccess (fun _ => rfl),
      countP_enable_zero _ env isSfnSuccess
        (fun _ => rfl) (fun _ => rfl) (fun _ _ _ _ => rfl),
      countP_disable_zero _ env isSfnSuccess
        (fun _ => rfl) (fun _ => rfl) (fun _ _ _ _ => rfl), hS]
  · rw [countDisable_main env, hsig]
  · rw [hdec]
    apply precedes_append
    · simp [List.countP_append,
        countP_get_task_arn_zero env isCallDisable (fun _ => rfl),
        countP_enable_zero _ env isCallDisable
          (fun _ => rfl) (fun _ => rfl) (fun _ _ _ _ => rfl),
        countP_sendS_zero _ _ env isCallDisable
          (fun _ => rfl) (fun _ _ => rfl) (fun _ _ => rfl)]
    · have h1 : 0 < ((send_task_success env.taskToken o env).1).countP
          isCallSendSuccess := by
        rw [countP_sendS_callSendSuccess]
        omega
      simp [List.any_append, any_of_countP_pos h1]

/-- C1 witness: the amended statement instantiated at the healthy run. -/
theorem C1_success_reporting_witness :
    ((main envBase).1).countP isCallSendSuccess = 1 ∧
    ((main envBase).1).countP isCallSendFailure = 0 ∧
    ((main envBase).1).countP isSfnSuccess = 1 ∧
    ((main envBase).1).countP isCallDisable = 1 ∧
    precedes isCallSendSuccess isCallDisable (main envBase).1 = true :=
  C1_success_reporting envBase "out" rfl rfl rfl (by decide)

/-- C2 counterexample: in the concrete run `envErr` whose Work Unit raises
`ValueError`, `send_task_failure` is invoked exactly once, but
`disable_task_protection` is NOT invoked before that call — it runs only
afterwards, in the `finally` block — so the claim's ordering is false at
this input. -/
theorem C2_counterexample :
    ((main envErr).1).countP isCallSendFailure = 1 ∧
    precedes isCallDisable isCallSendFailure (main envErr).1 = false := by
  decide

/-- C2 (amended): for every run in which the Work Unit raises `e` (and no
signal is delivered), `send_task_failure` is invoked exactly once, with
error equal to `e`'s type name and a cause — the formatted traceback —
containing `e`'s diagnostic text; `disable_task_protection` is invoked
exactly once, after (not before) that call; and the process exits with
status 1 after reporting. -/
theorem C2_failure_reporting (env : Env) (e : PyError)
    (hsig : env.sigterm = .noSignal) (hwork : env.work = .error e) :
    ((main env).1).countP isCallSendFailure = 1 ∧
    Ev.callSendFailure env.taskToken e.name (format_exc e) ∈ (main env).1 ∧
    containsSub e.msg.toList (format_exc e).toList = true ∧
    ((main env).1).countP isCallDisable = 1 ∧
    precedes isCallSendFailure isCallDisable (main env).1 = true ∧
    (main env).2 = .exited 1 := by
  have hdec := main_noSignal_error env e hsig hwork
  refine ⟨?_, ?_, format_exc_contains_msg e, ?_, ?_, ?_⟩
  · rw [hdec]
    simp [List.countP_append, List.countP_cons,
      countP_get_task_arn_zero env isCallSendFailure (fun _ => rfl),
      countP_enable_zero _ env isCallSendFailure
        (fun _ => rfl) (fun _ => rfl) (fun _ _ _ _ => rfl),
      countP_sendF_callSendFailure,
      countP_disable_zero _ env isCallSendFailure
        (fun _ => rfl) (fun _ => rfl) (fun _ _ _ _ => rfl),
      isCallSendFailure]
  · rw [hdec]
    apply List.mem_append_left
    apply List.mem_append_right
    exact List.mem_cons_of_mem _ (sendF_call_mem _ _ _)
  · rw [countDisable_main env, hsig]
  · rw [hdec]
    apply precedes_append
    · simp [List.countP_append, List.countP_cons,
        countP_get_task_arn_zero env isCallDisable (fun _ => rfl),
        countP_enable_zero _ env isCallDisable
          (fun _ => rfl) (fun _ => rfl) (fun _ _ _ _ => rfl),
        countP_sendF_zero _ _ _ isCallDisable
          (fun _ => rfl) (fun _ _ _ => rfl) (fun _ _ _ => rfl),
        isCallDisable]
    · have h1 : 0 < (send_task_failure env.taskToken e.name
          (format_exc e)).countP isCallSendFailure := by
        rw [countP_sendF_callSendFailure]
        omega
      simp [List.any_append, List.any_cons, any_of_countP_pos h1]
  · rw [hdec]

/-- C2 witness: the amended statement instantiated at `envErr`. -/
theorem C2_failure_reporting_witness :
    ((main envErr).1).countP isCallSendFailure = 1 ∧
    Ev.callSendFailure envErr.taskToken "ValueError"
      (format_exc ⟨"ValueError", "bad input"⟩) ∈ (main envErr).1 ∧
    containsSub ("bad input").toList
      (format_exc ⟨"ValueError", "bad input"⟩).toList = true ∧
    ((main envErr).1).countP isCallDisable = 1 ∧
    precedes isCallSendFailure isCallDisable (main envErr).1 = true ∧
    (main envErr).2 = .exited 1 :=
  C2_failure_reporting envErr ⟨"ValueError", "bad input"⟩ rfl rfl

/-- C3 counterexample: a SIGTERM delivered after `enable_task_protection`
returns but before `signal.signal` registers the handler is handled by the
default disposition: the process dies with no `send_task_failure` call at
all and with a signal exit, not status 1 — contradicting the claim for
this delivery point. -/
theorem C3_counterexample :
    ((main envSigGap).1).countP isCallSendFailure = 0 ∧
    (main envSigGap).2 = .killedBySignal 15 := by
  decide

/-- C3 (amended): for every run in which a SIGTERM is delivered after the
handler is registered (between registration and the `try` block, or while
the `try` block runs, before the Work Unit completes), `send_task_failure`
is invoked exactly once with kind "TaskTerminated", no `send_task_success`
call is made, `disable_task_protection` still runs, and the process exits
with status 1. -/
theorem C3_sigterm_reporting (env : Env)
    (h : env.sigterm = .afterRegister ∨ env.sigterm = .duringWork) :
    ((main env).1).countP (isCallSendFailureKind "TaskTerminated") = 1 ∧
    ((main env).1).countP isCallSendSuccess = 0 ∧
    1 ≤ ((main env).1).countP isCallDisable ∧
    (main env).2 = .exited 1 := by
  refine ⟨countTT_main env h, ?_, ?_, ?_⟩
  · rw [countSendSuccess_main env]
    rcases h with hsig | hsig <;> rw [hsig]
  · rw [countDisable_main env]
    rcases h with hsig | hsig <;> simp [hsig]
  · rcases h with hsig | hsig
    · rw [main_afterRegister env hsig]
    · rw [main_duringWork env hsig]

/-- C3 witness: the amended statement instantiated at the run interrupted
inside the `try` block. -/
theorem C3_sigterm_reporting_witness :
    ((main envSigWork).1).countP (isCallSendFailureKind "TaskTerminated") = 1 ∧
    ((main envSigWork).1).countP isCallSendSuccess = 0 ∧
    1 ≤ ((main envSigWork).1).countP isCallDisable ∧
    (main envSigWork).2 = .exited 1 :=
  C3_sigterm_reporting envSigWork (Or.inr rfl)

/-- C4 counterexample: when the SIGTERM interrupts the `try` block,
`disable_task_protection` is invoked twice in the run (once by the handler
and once by the `finally` block), not exactly once. -/
theorem C4_counterexample :
    ((main envSigWork).1).countP isCallDisable = 2 := by
  decide

/-- C4 (amended): `disable_task_protection` is invoked exactly once on the
success and business-error paths and on a termination delivered between
handler registration and the `try` block; twice (handler plus `finally`)
when the termination interrupts the `try` block; and not at all when the
signal arrives before the handler is registered and the default
disposition kills the process. -/
theorem C4_disable_count (env : Env) :
    ((main env).1).countP isCallDisable =
      (match env.sigterm with
        | .beforeRegister => 0
        | .duringWork => 2
        | _ => 1) :=
  countDisable_main env

/-- C5: with no callback token configured, no Step Functions transport
request is issued on any path, while `enable_task_protection`, the
disable discipline and the Work Unit run exactly as usual (in particular
a signal-free run still exits 0 on success and 1 on a business error). -/
theorem C5_no_token (env : Env) (h : env.taskToken = none) :
    ((main env).1).countP isSfnCall = 0 ∧
    ((main env).1).countP isCallEnable = 1 ∧
    ((main env).1).countP isCallDisable =
      (match env.sigterm with
        | .beforeRegister => 0
        | .duringWork => 2
        | _ => 1) ∧
    (env.sigterm = .noSignal →
      (main env).2 =
        (match env.work with
          | .ok _ => .exited 0
          | .error _ => .exited 1)) :=
  ⟨countSfn_main_noToken env h, countEnable_main env, countDisable_main env,
    fun hsig => exit_main_noToken env h hsig⟩

/-- Run with no callback token configured. -/
def envNoTok : Env := { envBase with taskToken := none }

/-- C5 witness: the statement instantiated at the token-less healthy run. -/
theorem C5_no_token_witness :
    ((main envNoTok).1).countP isSfnCall = 0 ∧
    ((main envNoTok).1).countP isCallEnable = 1 ∧
    ((main envNoTok).1).countP isCallDisable =
      (match envNoTok.sigterm with
        | .beforeRegister => 0
        | .duringWork => 2
        | _ => 1) ∧
    (envNoTok.sigterm = .noSignal →
      (main envNoTok).2 =
        (match envNoTok.work with
          | .ok _ => .exited 0
          | .error _ => .exited 1)) :=
  C5_no_token envNoTok rfl

/-- C6: for every cause string passed to `send_task_failure` with a token
present, the function always submits one transport request (never
rejects), whose cause is `cause[:256]`: exactly the first
`min 256 (length cause)` characters — a prefix of the original of length
at most 256. -/
theorem C6_cause_truncation (t error cause : String) (h : t.isEmpty = false) :
    send_task_failure (some t) error cause =
      [.callSendFailure (some t) error cause,
        .sfnSendTaskFailure t error (pySlice cause 256),
        .log ("SendTaskFailure sent: " ++ error)] ∧
    (pySlice cause 256).toList = cause.toList.take 256 ∧
    (pySlice cause 256).toList.length ≤ 256 ∧
    (pySlice cause 256).toList <+: cause.toList := by
  refine ⟨?_, rfl, ?_, ?_⟩
  · rw [send_task_failure.eq_def]
    simp [h]
  · rw [pySlice, toList_mk]
    exact List.length_take_le _ _
  · rw [pySlice, toList_mk]
    exact List.take_prefix _ _

/-- A 300-character cause string. -/
def longCause : String := String.mk (List.replicate 300 'x')

/-- C6 witness: the statement instantiated at a concrete over-long cause. -/
theorem C6_cause_truncation_witness :
    send_task_failure (some "tok-1") "ValueError" longCause =
      [.callSendFailure (some "tok-1") "ValueError" longCause,
        .sfnSendTaskFailure "tok-1" "ValueError" (pySlice longCause 256),
        .log ("SendTaskFailure sent: " ++ "ValueError")] ∧
    (pySlice longCause 256).toList = longCause.toList.take 256 ∧
    (pySlice longCause 256).toList.length ≤ 256 ∧
    (pySlice longCause 256).toList <+: longCause.toList :=
  C6_cause_truncation "tok-1" "ValueError" longCause (by decide)

/-- C7: whenever metadata resolution fails (metadata endpoint variable
unset or empty, or the endpoint request raises), `get_task_arn` yields
`none` (it never raises — its model is total), no ECS protection request
is ever issued in the run, and a signal-free run with a token still
completes (exit 0 or 1) and issues at least one terminal callback
transport request. -/
theorem C7_metadata_degraded (env : Env)
    (hmeta : env.metadataUri = none ∨
      (∃ u, env.metadataUri = some u ∧ u.isEmpty = true) ∨
      (∃ e, env.metadataResponse = .error e)) :
    (get_task_arn env).1 = none ∧
    ((main env).1).countP isEcsCall = 0 ∧
    (env.sigterm = .noSignal → truthyOpt env.taskToken = true →
      1 ≤ ((main env).1).countP isSfnCall ∧
      ((main env).2 = .exited 0 ∨ (main env).2 = .exited 1)) := by
  have harn := get_task_arn_fail env hmeta
  exact ⟨harn, countEcs_main_noArn env harn,
    fun hsig htok =>
      ⟨countSfn_main_noSignal_tok env hsig htok, exit_main_noSignal env hsig⟩⟩

/-- Run whose metadata endpoint variable is unset. -/
def envNoMeta : Env := { envBase with metadataUri := none }

/-- C7 witness: the statement instantiated at the metadata-less run. -/
theorem C7_metadata_degraded_witness :
    (get_task_arn envNoMeta).1 = none ∧
    ((main envNoMeta).1).countP isEcsCall = 0 ∧
    (envNoMeta.sigterm = .noSignal → truthyOpt envNoMeta.taskToken = true →
      1 ≤ ((main envNoMeta).1).countP isSfnCall ∧
      ((main envNoMeta).2 = .exited 0 ∨ (main envNoMeta).2 = .exited 1)) :=
  C7_metadata_degraded envNoMeta (Or.inl rfl)

/-- C8: for every documented-form ARN
`arn:aws:ecs:region:account:task/cluster/taskid` (components free of `/`,
cluster and taskid free of `:`, cluster non-empty), `enable_task_protection`
issues exactly one ECS request, namely `update_task_protection` for the
derived cluster segment with `protectionEnabled = true` and
`expiresInMinutes = 120`; and if the request raises, the failure is
swallowed and logged (the function still returns its trace). -/
theorem C8_enable_protection (region acct cluster tid : String) (env : Env)
    (hr : '/' ∉ region.toList) (ha : '/' ∉ acct.toList)
    (hcS : '/' ∉ cluster.toList) (hcC : ':' ∉ cluster.toList)
    (htS : '/' ∉ tid.toList) (htC : ':' ∉ tid.toList)
    (hcne : cluster ≠ "") :
    (enable_task_protection (some (docArn region acct cluster tid)) env).countP
      isEcsCall = 1 ∧
    Ev.ecsProtect cluster (docArn region acct cluster tid) true (some 120) ∈
      enable_task_protection (some (docArn region acct cluster tid)) env ∧
    (∀ e, env.ecsEnableErr = some e →
      Ev.log ("Could not enable task protection: " ++ e.msg) ∈
        enable_task_protection (some (docArn region acct cluster tid)) env) := by
  rw [enable_docArn_trace region acct cluster tid env hr ha hcS hcC htS htC hcne]
  rcases he : env.ecsEnableErr with _ | e
  · refine ⟨by simp [List.countP_cons, isEcsCall, isCallEnable], by simp, ?_⟩
    intro e' he'
    cases he'
  · refine ⟨by simp [List.countP_cons, isEcsCall, isCallEnable], by simp, ?_⟩
    intro e' he'
    cases he'
    simp

/-- C8 witness: the statement instantiated at a concrete documented-form
ARN in a run whose protect request raises (so the swallow-and-log clause
is exercised too). -/
theorem C8_enable_protection_witness :
    (enable_task_protection
      (some (docArn "us-east-1" "123456789012" "mycluster" "abc123"))
      { envBase with ecsEnableErr := some ⟨"ClientError", "denied"⟩ }).countP
      isEcsCall = 1 ∧
    Ev.ecsProtect "mycluster"
      (docArn "us-east-1" "123456789012" "mycluster" "abc123") true (some 120) ∈
      enable_task_protection
        (some (docArn "us-east-1" "123456789012" "mycluster" "abc123"))
        { envBase with ecsEnableErr := some ⟨"ClientError", "denied"⟩ } ∧
    (∀ e,
      ({ envBase with
          ecsEnableErr := some ⟨"ClientError", "denied"⟩ } : Env).ecsEnableErr =
        some e →
      Ev.log ("Could not enable task protection: " ++ e.msg) ∈
        enable_task_protection
          (some (docArn "us-east-1" "123456789012" "mycluster" "abc123"))
          { envBase with ecsEnableErr := some ⟨"ClientError", "denied"⟩ }) :=
  C8_enable_protection "us-east-1" "123456789012" "mycluster" "abc123"
    { envBase with ecsEnableErr := some ⟨"ClientError", "denied"⟩ }
    (by decide) (by decide) (by decide) (by decide) (by decide) (by decide)
    (by decide)

/-- C9: `combine_scope_data` sums `total_sheets` and `sheets_with_scope`
over the inputs, sums every indicator's count across the inputs (Python
dict keys are unique, hence the no-duplicate-keys hypothesis on each
input), and concatenates the `sheet_details` lists capped at 50 entries. -/
theorem C9_combine (α : Type) (l : List (ScopeData α)) (k : String)
    (h : ∀ sd ∈ l, (sd.scope_indicator_counts.map Prod.fst).Nodup) :
    (combine_scope_data l).total_sheets =
      (l.map (fun sd => sd.total_sheets)).sum ∧
    (combine_scope_data l).sheets_with_scope =
      (l.map (fun sd => sd.sheets_with_scope)).sum ∧
    dictGetD (combine_scope_data l).scope_indicator_counts k 0 =
      (l.map (fun sd => dictGetD sd.scope_indicator_counts k 0)).sum ∧
    (combine_scope_data l).sheet_details =
      (l.map (fun sd => sd.sheet_details)).join.take 50 := by
  refine ⟨?_, ?_, ?_, ?_⟩
  · rw [combine_scope_data]
    rw [foldl_combineStep_total]
    simp
  · rw [combine_scope_data]
    rw [foldl_combineStep_sheets]
    simp
  · rw [combine_scope_data]
    dsimp only
    rw [foldl_combineStep_counts l k ⟨0, 0, [], []⟩ h]
    simp [dictGetD_nil]
  · rw [combine_scope_data]
    rw [foldl_combineStep_details]
    simp

/-- Two concrete scope-data inputs. -/
def sdList : List (ScopeData String) :=
  [⟨2, 1, [("Fencing", 2)], ["a"]⟩,
   ⟨3, 2, [("Pavers", 1), ("Fencing", 1)], ["b", "c"]⟩]

/-- C9 witness: the statement instantiated at two concrete inputs and the
indicator "Fencing". -/
theorem C9_combine_witness :
    (combine_scope_data sdList).total_sheets =
      (sdList.map (fun sd => sd.total_sheets)).sum ∧
    (combine_scope_data sdList).sheets_with_scope =
      (sdList.map (fun sd => sd.sheets_with_scope)).sum ∧
    dictGetD (combine_scope_data sdList).scope_indicator_counts "Fencing" 0 =
      (sdList.map (fun sd => dictGetD sd.scope_indicator_counts "Fencing" 0)).sum ∧
    (combine_scope_data sdList).sheet_details =
      (sdList.map (fun sd => sd.sheet_details)).join.take 50 :=
  C9_combine String sdList "Fencing" (by decide)

/-- C10: in the concrete run `envSendErr`, whose Work Unit succeeds but
whose `SendTaskSuccess` transport raises, `main`'s `except` block then
invokes `send_task_failure` against the same token: both terminal callback
operations are attempted (and both transport requests issued) in a single
run. -/
theorem C10_double_callback :
    ((main envSendErr).1).countP isCallSendSuccess = 1 ∧
    ((main envSendErr).1).countP isSfnSuccess = 1 ∧
    ((main envSendErr).1).countP isCallSendFailure = 1 ∧
    ((main envSendErr).1).countP isSfnFailure = 1 ∧
    Ev.sfnSendTaskSuccess "tok-1" "out" ∈ (main envSendErr).1 ∧
    Ev.callSendFailure (some "tok-1") "ClientError"
      (format_exc ⟨"ClientError", "transport down"⟩) ∈ (main envSendErr).1 := by
  decide

end ScopeScoring
